import Mathlib

/-!
Shallow embedding of src/ldirectory.py (ldeep): the Active Directory
attribute decoders (format_userAccountControl, format_dnsrecord), the
paged-search query loop, SID resolution, account unlock and the
ActiveDirectoryView constructor, together with theorems about them.

Python strings are modelled as Lean String (byte strings in the DNS
decoder as List Nat with every element a byte value), Python dicts as
association lists in insertion order, raised exceptions as the error
branch of Except, and the external ldap3 collaborator (connection,
paged_search generator, validate_sid, ad_unlock_account) as explicit
parameters.
-/

set_option autoImplicit false

namespace Ldeep

/-! ## Lookup tables

Modelled from the spec: the tables live in the repository module
ldap_utils, which is not part of src/; the spec describes them as fixed
name-to-bit and name-to-code tables (account-control bit meanings, DNS
record type codes, well-known SIDs), immutable for the process lifetime.
The theorems below depend only on the association-list shape, the entry
order, and the standard codes quoted by the spec (record type A). -/

/-- Modelled from the spec: USER_ACCOUNT_CONTROL, the fixed table of
userAccountControl flag names and bit values from ldap_utils (missing
from src/), in definition order. -/
def USER_ACCOUNT_CONTROL : List (String × Int) :=
  [("SCRIPT", 1), ("ACCOUNTDISABLE", 2), ("HOMEDIR_REQUIRED", 8),
   ("LOCKOUT", 16), ("PASSWD_NOTREQD", 32), ("PASSWD_CANT_CHANGE", 64),
   ("ENCRYPTED_TEXT_PWD_ALLOWED", 128), ("TEMP_DUPLICATE_ACCOUNT", 256),
   ("NORMAL_ACCOUNT", 512), ("INTERDOMAIN_TRUST_ACCOUNT", 2048),
   ("WORKSTATION_TRUST_ACCOUNT", 4096), ("SERVER_TRUST_ACCOUNT", 8192),
   ("DONT_EXPIRE_PASSWORD", 65536), ("MNS_LOGON_ACCOUNT", 131072),
   ("SMARTCARD_REQUIRED", 262144), ("TRUSTED_FOR_DELEGATION", 524288),
   ("NOT_DELEGATED", 1048576), ("USE_DES_KEY_ONLY", 2097152),
   ("DONT_REQ_PREAUTH", 4194304), ("PASSWORD_EXPIRED", 8388608),
   ("TRUSTED_TO_AUTH_FOR_DELEGATION", 16777216),
   ("PARTIAL_SECRETS_ACCOUNT", 67108864)]

/-- Modelled from the spec: DNS_TYPES, the fixed table of DNS record
type names and codes from ldap_utils (missing from src/), in definition
order; codes are the standard DNS record type codes (A = 1). -/
def DNS_TYPES : List (String × Nat) :=
  [("ZERO", 0), ("A", 1), ("NS", 2), ("MD", 3), ("MF", 4), ("CNAME", 5),
   ("SOA", 6), ("MB", 7), ("MG", 8), ("MR", 9), ("NULL", 10), ("WKS", 11),
   ("PTR", 12), ("HINFO", 13), ("MINFO", 14), ("MX", 15), ("TXT", 16),
   ("AAAA", 28), ("SRV", 33)]

/-- Modelled from the spec: WELL_KNOWN_SIDs, the static table mapping
canonical well-known SID strings to human names, from ldap_utils
(missing from src/). -/
def WELL_KNOWN_SIDs : List (String × String) :=
  [("S-1-0-0", "Nobody"), ("S-1-1-0", "Everyone"),
   ("S-1-5-18", "Local System"), ("S-1-5-19", "NT Authority"),
   ("S-1-5-20", "NT Authority"), ("S-1-5-32-544", "Administrators"),
   ("S-1-5-32-545", "Users"), ("S-1-5-32-546", "Guests")]

/-! ## format_userAccountControl (src/ldirectory.py lines 19-31)

The Python function tries int(raw_value); on success it walks
USER_ACCOUNT_CONTROL appending every flag name whose bit value ANDs
nonzero with the parsed integer and returns the " | "-join; on a
TypeError/ValueError (or any other exception) it returns raw_value
unchanged. -/

/-- Python whitespace accepted by int(): space, \t, \n, \v, \f, \r. -/
def isPySpace (c : Char) : Bool :=
  c == ' ' || c == '\t' || c == '\n' || c.toNat == 11 || c.toNat == 12 || c == '\r'

/-- Digits-with-underscores body of a Python integer literal: nonempty,
starts and ends with a digit, and every underscore sits between two
digits (no two consecutive underscores). -/
def pyDigitsOk : List Char → Bool
  | [] => false
  | [c] => c.isDigit
  | c :: '_' :: t => c.isDigit && pyDigitsOk t
  | c :: d :: t => c.isDigit && pyDigitsOk (d :: t)

/-- Numeric value of a digit string, ignoring underscores. -/
def pyDigitsVal (l : List Char) : Int :=
  l.foldl (fun a c => if c == '_' then a else a * 10 + (c.toNat - 48 : Int)) 0

/-- Model of Python int() applied to a decoded string: optional
surrounding whitespace, optional sign, then decimal digits (single
underscores between digits allowed); none when int() would raise
ValueError. Non-ASCII digit forms are not modelled. -/
def pyInt (s : String) : Option Int :=
  let t := ((s.toList.dropWhile isPySpace).reverse.dropWhile isPySpace).reverse
  let (sign, ds) : Int × List Char :=
    match t with
    | '-' :: rest => (-1, rest)
    | '+' :: rest => (1, rest)
    | rest => (1, rest)
  if pyDigitsOk ds then some (sign * pyDigitsVal ds) else none

/-- The accumulation loop of format_userAccountControl: append the name
of every table entry whose bit value ANDs nonzero with val. -/
def uacFlags (val : Int) : List String :=
  USER_ACCOUNT_CONTROL.foldl
    (fun result kv => if kv.2.land val ≠ 0 then result ++ [kv.1] else result) []

/-- src/ldirectory.py lines 19-31. Total: the except branches return the
raw value unchanged, so no input raises. -/
def format_userAccountControl (raw_value : String) : String :=
  match pyInt raw_value with
  | some val => String.intercalate " | " (uacFlags val)
  | none => raw_value

/-! ## format_dnsrecord (src/ldirectory.py lines 34-46)

raw_value is a byte string (List Nat, entries < 256).  The Python
function unpacks the first four bytes as two little-endian unsigned
16-bit fields (datalen, datatype) — struct.error when fewer than four
bytes are available — slices data = raw_value[24:24+datalen], and walks
DNS_TYPES for the first entry whose code equals datatype.  For "A" it
renders the data through socket.inet_ntoa (exactly four bytes, else
OSError); for any other matching name it decodes the data with the
unicode-escape codec and keeps only characters with code point > 31 or
equal to 9; with no matching entry it falls off the loop and returns
None.  Raised exceptions are the .error branch, None is .ok none. -/

/-- Python slice l[a:b] for a ≤ b (never raises, clamps to the list). -/
def pySlice (l : List Nat) (a b : Nat) : List Nat :=
  (l.drop a).take (b - a)

/-- A little-endian unsigned 16-bit field from two bytes (struct "HH" on
the little-endian platforms the tool targets). -/
def le16 (b0 b1 : Nat) : Nat := b0 + 256 * b1

/-- socket.inet_ntoa: four bytes to a dotted quad, OSError otherwise. -/
def inet_ntoa : List Nat → Except String String
  | [a, b, c, d] =>
      .ok (toString a ++ "." ++ toString b ++ "." ++ toString c ++ "." ++ toString d)
  | _ => .error "packed IP wrong length for inet_ntoa"

/-- Is the byte an ASCII octal digit? -/
def isOct (b : Nat) : Bool := 48 ≤ b && b ≤ 55

/-- Is the byte an ASCII hexadecimal digit? -/
def isHex (b : Nat) : Bool :=
  (48 ≤ b && b ≤ 57) || (97 ≤ b && b ≤ 102) || (65 ≤ b && b ≤ 70)

/-- Value of an ASCII hexadecimal digit byte. -/
def hexVal (b : Nat) : Nat :=
  if 48 ≤ b && b ≤ 57 then b - 48
  else if 97 ≤ b && b ≤ 102 then b - 87
  else b - 55

/-- One escape sequence of the unicode-escape codec, after a backslash:
c is the byte following the backslash and u the bytes after it.
Returns the emitted code points and how many bytes of u the escape
consumed, or the decode error Python raises.  Covered exactly as the
codec: backslash-newline line continuation (emits nothing), the named
single-character escapes, octal up to three digits, \xhh, \uhhhh,
\Uhhhhhhhh (rejecting code points above 0x10FFFF), and unknown escapes
keeping both the backslash and the character.  \N named escapes need
the Unicode name database and are modelled as a decode failure. -/
def escTok (c : Nat) (u : List Nat) : Except String (List Nat × Nat) :=
  if c = 10 then .ok ([], 0)
  else if c = 92 then .ok ([92], 0)
  else if c = 39 then .ok ([39], 0)
  else if c = 34 then .ok ([34], 0)
  else if c = 97 then .ok ([7], 0)
  else if c = 98 then .ok ([8], 0)
  else if c = 102 then .ok ([12], 0)
  else if c = 110 then .ok ([10], 0)
  else if c = 114 then .ok ([13], 0)
  else if c = 116 then .ok ([9], 0)
  else if c = 118 then .ok ([11], 0)
  else if isOct c then
    match u with
    | d2 :: d3 :: _ =>
      if isOct d2 then
        if isOct d3 then .ok ([(c - 48) * 64 + (d2 - 48) * 8 + (d3 - 48)], 2)
        else .ok ([(c - 48) * 8 + (d2 - 48)], 1)
      else .ok ([c - 48], 0)
    | [d2] =>
      if isOct d2 then .ok ([(c - 48) * 8 + (d2 - 48)], 1) else .ok ([c - 48], 0)
    | [] => .ok ([c - 48], 0)
  else if c = 120 then
    match u with
    | h1 :: h2 :: _ =>
      if isHex h1 && isHex h2 then .ok ([16 * hexVal h1 + hexVal h2], 2)
      else .error "truncated xXX escape"
    | _ => .error "truncated xXX escape"
  else if c = 117 then
    match u with
    | h1 :: h2 :: h3 :: h4 :: _ =>
      if isHex h1 && isHex h2 && isHex h3 && isHex h4 then
        .ok ([4096 * hexVal h1 + 256 * hexVal h2 + 16 * hexVal h3 + hexVal h4], 4)
      else .error "truncated uXXXX escape"
    | _ => .error "truncated uXXXX escape"
  else if c = 85 then
    match u with
    | h1 :: h2 :: h3 :: h4 :: h5 :: h6 :: h7 :: h8 :: _ =>
      if isHex h1 && isHex h2 && isHex h3 && isHex h4 &&
          isHex h5 && isHex h6 && isHex h7 && isHex h8 then
        if 268435456 * hexVal h1 + 16777216 * hexVal h2 + 1048576 * hexVal h3 +
            65536 * hexVal h4 + 4096 * hexVal h5 + 256 * hexVal h6 + 16 * hexVal h7 +
            hexVal h8 ≤ 1114111 then
          .ok ([268435456 * hexVal h1 + 16777216 * hexVal h2 + 1048576 * hexVal h3 +
            65536 * hexVal h4 + 4096 * hexVal h5 + 256 * hexVal h6 + 16 * hexVal h7 +
            hexVal h8], 8)
        else .error "illegal Unicode character"
      else .error "truncated UXXXXXXXX escape"
    | _ => .error "truncated UXXXXXXXX escape"
  else if c = 78 then .error "N character name escape (name database not modelled)"
  else .ok ([92, c], 0)

/-- The unicode-escape traversal: a byte other than a backslash maps to
the code point of the same value (latin-1); a backslash consumes the
escape sequence escTok parses; a trailing backslash is a decode error.
The fuel argument only bounds the recursion; every step consumes at
least one byte, so with the byte count as fuel the fuel branch is never
taken. -/
def ueAux : Nat → List Nat → Except String (List Nat)
  | _, [] => .ok []
  | 0, _ :: _ => .error "unicode-escape fuel exhausted (never reached from unicodeEscape)"
  | fuel + 1, b :: t =>
    if b = 92 then
      match t with
      | [] => .error "bslash at end of string"
      | c :: u =>
        match escTok c u with
        | .error e => .error e
        | .ok (cs, k) => (fun r => cs ++ r) <$> ueAux fuel (u.drop k)
    else (fun r => b :: r) <$> ueAux fuel t

/-- Model of bytes.decode with the unicode-escape codec: the result is
the list of decoded code points, or the decode error Python raises. -/
def unicodeEscape (l : List Nat) : Except String (List Nat) :=
  ueAux l.length l

/-- The character filter of the non-"A" branch: keep code points
strictly above 31 or equal to 9 (tab). -/
def printableFilter (cs : List Nat) : List Nat :=
  cs.filter fun c => 31 < c || c == 9

/-- Render a list of code points as a string (all code points reached by
the claims are valid scalar values). -/
def strOfCodes (cs : List Nat) : String :=
  String.mk (cs.map Char.ofNat)

/-- The DNS_TYPES loop of format_dnsrecord: first entry whose code
equals datatype decides the rendering; falling off the loop is None. -/
def dnsLoop (datatype : Nat) (data : List Nat) :
    List (String × Nat) → Except String (Option String)
  | [] => .ok none
  | (recordname, recordvalue) :: rest =>
    if recordvalue = datatype then
      if recordname = "A" then
        (fun target => some (recordname ++ " " ++ target)) <$> inet_ntoa data
      else
        (fun ds => some (recordname ++ " " ++ strOfCodes (printableFilter ds))) <$>
          unicodeEscape data
    else dnsLoop datatype data rest

/-- src/ldirectory.py lines 34-46. -/
def format_dnsrecord (raw_value : List Nat) : Except String (Option String) :=
  if raw_value.length < 4 then .error "unpack requires a buffer of 4 bytes"
  else
    let datalen := le16 (raw_value.getD 0 0) (raw_value.getD 1 0)
    let datatype := le16 (raw_value.getD 2 0) (raw_value.getD 3 0)
    let data := pySlice raw_value 24 (24 + datalen)
    dnsLoop datatype data DNS_TYPES

/-! ## ActiveDirectoryView (src/ldirectory.py lines 54-198)

The ldap3 collaborator is abstracted: a directory is a function from an
LDAP filter string to the event sequence its paged_search generator
produces (each event either yields an entry or raises
LDAPOperationResult with a message), validate_sid is a predicate, and
ad_unlock_account is a function from a distinguished name to its
bool-or-str result.  Exceptions raised by the view are the Err type. -/

/-- The exceptions the view layer can raise.  adLdap is
ActiveDirectoryLdapException, invalidSid is
ActiveDirectoryLdapInvalidSID; keyError and attributeError are the
Python built-in exceptions of the same names. -/
inductive Err where
  | adLdap (msg : String)
  | invalidSid (msg : String)
  | invalidGuid (msg : String)
  | keyError (key : String)
  | attributeError (attr : String)
deriving DecidableEq, Repr

/-- A record handed back by query: a Python dict in insertion order. -/
abbrev Rec := List (String × String)

/-- One entry yielded by the ldap3 paged_search generator: search
references carry no "dn" key (dn = none); real hits carry the
distinguished name and the decoded attributes dict. -/
structure SearchEntry where
  dn : Option String
  attributes : Rec
deriving DecidableEq, Repr

/-- One step of the generator: either an entry is yielded or
LDAPOperationResult is raised with a diagnostic message. -/
abbrev GenEvent := SearchEntry ⊕ String

/-- Python dict assignment d[k] = v: overwrite in place when the key
exists, append at the end otherwise. -/
def dictSet : Rec → String → String → Rec
  | [], k, v => [(k, v)]
  | (k', v') :: rest, k, v =>
    if k' = k then (k, v) :: rest else (k', v') :: dictSet rest k v

/-- The record built from one dn-carrying entry: d = entry["attributes"];
d["dn"] = entry["dn"] (src/ldirectory.py lines 134-135). -/
def mkRecord (e : SearchEntry) (d : String) : Rec :=
  dictSet e.attributes "dn" d

/-- The for-loop of query over the generator events, with the
result_set accumulator; an LDAPOperationResult event re-raises as
ActiveDirectoryLdapException and drops the accumulator. -/
def queryLoop : List GenEvent → List Rec → Except Err (List Rec)
  | [], result_set => .ok result_set
  | .inl e :: rest, result_set =>
    match e.dn with
    | some d => queryLoop rest (result_set ++ [mkRecord e d])
    | none => queryLoop rest result_set
  | .inr msg :: _, _ => .error (.adLdap msg)

/-- src/ldirectory.py lines 110-141: run the paged search for an LDAP
filter against the directory and collect the dn-carrying entries. -/
def query (directory : String → List GenEvent) (ldapfilter : String) :
    Except Err (List Rec) :=
  queryLoop (directory ldapfilter) []

/-- The two result shapes of resolve_sid: the well-known-SID table value
(a plain name string) or the list of matching directory records. -/
inductive SidResult where
  | wellKnown (name : String)
  | records (rs : List Rec)
deriving DecidableEq, Repr

/-- src/ldirectory.py lines 143-160.  validate_sid is the ldap3
validator, abstracted as a predicate. -/
def resolve_sid (directory : String → List GenEvent)
    (validate_sid : String → Bool) (sid : String) : Except Err SidResult :=
  match WELL_KNOWN_SIDs.lookup sid with
  | some name => .ok (.wellKnown name)
  | none =>
    if validate_sid sid then
      match query directory ("(&(ObjectSid=" ++ sid ++ "))") with
      | .error e => .error e
      | .ok results =>
        if results.isEmpty then .error (.invalidSid ("SID: " ++ sid))
        else .ok (.records results)
    else .error (.invalidSid ("SID: " ++ sid))

/-- The bool-or-str result of ldap3's ad_unlock_account
(src/ldirectory.py line 194: the value is either True or str). -/
inductive UnlockResult where
  | b (v : Bool)
  | s (v : String)
deriving DecidableEq, Repr

/-- src/ldirectory.py lines 178-198, applied to the outcome of the
user-lookup query (USER_DN_FILTER and the info logging call live in
repository code missing from src/; the filter outcome is taken as a
parameter and logging has no effect on the result).  Exactly one result
record reaches ad_unlock_account with the record's dn; any other count
raises ActiveDirectoryLdapException.  The final isinstance(unlock, bool)
check returns True for every bool and False for every str. -/
def unlock (queryOutcome : Except Err (List Rec))
    (ad_unlock_account : String → UnlockResult) : Except Err Bool :=
  match queryOutcome with
  | .error e => .error e
  | .ok results =>
    match results with
    | [user] =>
      match user.lookup "dn" with
      | some dn =>
        .ok (match ad_unlock_account dn with
             | .b _ => true
             | .s _ => false)
      | none => .error (.keyError "dn")
    | _ => .error (.adLdap "Zero or non uniq result")

/-- The two Connection objects the constructor can build
(src/ldirectory.py lines 92-102). -/
inductive ConnKind where
  | kerberos (server : String)
  | ntlm (server user password : String)
deriving DecidableEq, Repr

/-- The state a successfully constructed view holds. -/
structure ViewState where
  ldap : ConnKind
  base_dn : String
deriving DecidableEq, Repr

/-- The Connection construction of __init__: a Kerberos SASL connection
for method "Kerberos", an NTLM connection with user "fqdn\\username"
for method "NTLM", and no Connection at all for any other method. -/
def connFor (server fqdn username password method : String) : Option ConnKind :=
  if method = "Kerberos" then some (.kerberos server)
  else if method = "NTLM" then some (.ntlm server (fqdn ++ "\\" ++ username) password)
  else none

/-- src/ldirectory.py lines 68-108.  bind abstracts Connection.bind().
The first component records the Connection object created (none when no
branch assigned self.ldap).  When self.ldap was never assigned, the
self.ldap.bind() call raises AttributeError; when bind returns False the
constructor raises ActiveDirectoryLdapException; otherwise base_dn
defaults to the dc-joined fqdn when base is empty. -/
def initView (server fqdn base username password method : String)
    (bind : ConnKind → Bool) : Option ConnKind × Except Err ViewState :=
  match connFor server fqdn username password method with
  | none => (none, .error (.attributeError "ldap"))
  | some c =>
    if bind c then
      (some c, .ok
        { ldap := c
          base_dn :=
            if base ≠ "" then base
            else String.intercalate "," ((fqdn.splitOn ".").map (fun d => "dc=" ++ d)) })
    else (some c, .error (.adLdap "Unable to bind with provided information"))

/-- Equality of Except values over decidable components is decidable
(used to evaluate the decoders at concrete inputs). -/
instance {ε α : Type} [DecidableEq ε] [DecidableEq α] : DecidableEq (Except ε α) :=
  fun x y =>
    match x, y with
    | .ok a, .ok b => decidable_of_iff (a = b) (by simp)
    | .error a, .error b => decidable_of_iff (a = b) (by simp)
    | .ok _, .error _ => .isFalse (by simp)
    | .error _, .ok _ => .isFalse (by simp)

/-! ## Theorems -/

/-- The flag-collection loop is the filter of the table by a nonzero
bitwise AND, mapped to the names, in table order. -/
theorem uacFoldl_eq_filter (val : Int) (l : List (String × Int)) (acc : List String) :
    l.foldl (fun result kv => if kv.2.land val ≠ 0 then result ++ [kv.1] else result) acc =
      acc ++ (l.filter fun p => p.2.land val ≠ 0).map Prod.fst := by
  induction l generalizing acc with
  | nil => simp
  | cons p t ih =>
    rw [List.foldl_cons, List.filter_cons]
    by_cases h : p.2.land val ≠ 0
    · rw [if_pos h, if_pos (decide_eq_true h), ih, List.map_cons]
      simp
    · rw [if_neg h, if_neg (fun hh => h (of_decide_eq_true hh)), ih]

/-- C2: format_userAccountControl is total; on an input parseable as an
integer v it returns the " | "-join of exactly the flag names whose
table bit ANDs nonzero with v, in table definition order; on an input
not parseable as an integer it returns the input unchanged. -/
theorem format_userAccountControl_c2 (raw : String) :
    (∀ v : Int, pyInt raw = some v →
      format_userAccountControl raw =
        String.intercalate " | "
          ((USER_ACCOUNT_CONTROL.filter fun p => p.2.land v ≠ 0).map Prod.fst)) ∧
    (pyInt raw = none → format_userAccountControl raw = raw) := by
  constructor
  · intro v hv
    have h1 : format_userAccountControl raw = String.intercalate " | " (uacFlags v) := by
      unfold format_userAccountControl
      rw [hv]
    rw [h1]
    unfold uacFlags
    rw [uacFoldl_eq_filter v USER_ACCOUNT_CONTROL []]
    simp
  · intro hn
    unfold format_userAccountControl
    rw [hn]

/-- Witness for C2 at the parseable input "514" and the non-parseable
input "not-a-number". -/
theorem format_userAccountControl_c2_witness :
    (pyInt "514" = some 514 ∧
      format_userAccountControl "514" =
        String.intercalate " | "
          ((USER_ACCOUNT_CONTROL.filter fun p => p.2.land (514 : Int) ≠ 0).map Prod.fst)) ∧
    (pyInt "not-a-number" = none ∧ format_userAccountControl "not-a-number" = "not-a-number") :=
  ⟨⟨by decide, (format_userAccountControl_c2 "514").1 514 (by decide)⟩,
   ⟨by decide, (format_userAccountControl_c2 "not-a-number").2 (by decide)⟩⟩

/-- C1 counterexample: with exactly one matching record, an underlying
boolean False from the unlock extended operation is returned as True,
not passed through as False as the claim states. -/
theorem unlock_c1_counterexample :
    unlock (.ok [[("dn", "CN=locked,DC=corp")]]) (fun _ => UnlockResult.b false) = .ok true ∧
    unlock (.ok [[("dn", "CN=locked,DC=corp")]]) (fun _ => UnlockResult.b false) ≠ .ok false := by
  constructor
  · rfl
  · decide

/-- C1 amended: with exactly one matching record carrying its dn, the
unlock result is normalized by an isinstance check only: any boolean
result (True or False) yields True, any string result yields False. -/
theorem unlock_c1_amended (user : Rec) (dn : String) (u : String → UnlockResult)
    (h : user.lookup "dn" = some dn) :
    (∀ b, u dn = UnlockResult.b b → unlock (.ok [user]) u = .ok true) ∧
    (∀ s, u dn = UnlockResult.s s → unlock (.ok [user]) u = .ok false) := by
  constructor
  · intro b hb
    simp [unlock, h, hb]
  · intro s hs
    simp [unlock, h, hs]

/-- Witness for C1 amended: one record, a string result from the
extended operation, normalized to False. -/
theorem unlock_c1_amended_witness :
    ([("dn", "CN=a,DC=corp")] : Rec).lookup "dn" = some "CN=a,DC=corp" ∧
    unlock (.ok [[("dn", "CN=a,DC=corp")]]) (fun _ => UnlockResult.s "0000052D") = .ok false :=
  ⟨by decide,
   (unlock_c1_amended [("dn", "CN=a,DC=corp")] "CN=a,DC=corp" _ (by decide)).2 "0000052D" rfl⟩

/-- C8: when the user lookup succeeds with a record count other than
one, unlock raises ActiveDirectoryLdapException, and the result does not
depend on the unlock extended operation (it is never invoked). -/
theorem unlock_c8 (results : List Rec) (u : String → UnlockResult)
    (h : results.length ≠ 1) :
    unlock (.ok results) u = .error (.adLdap "Zero or non uniq result") ∧
    ∀ u₂, unlock (.ok results) u = unlock (.ok results) u₂ := by
  match results with
  | [] => exact ⟨rfl, fun _ => rfl⟩
  | [r] => simp at h
  | a :: b :: t => exact ⟨rfl, fun _ => rfl⟩

/-- Witness for C8 at zero records and at two records. -/
theorem unlock_c8_witness :
    (([] : List Rec).length ≠ 1 ∧
      unlock (.ok []) (fun _ => UnlockResult.b true) =
        .error (.adLdap "Zero or non uniq result")) ∧
    (([[("dn", "CN=a")], [("dn", "CN=b")]] : List Rec).length ≠ 1 ∧
      unlock (.ok [[("dn", "CN=a")], [("dn", "CN=b")]]) (fun _ => UnlockResult.b true) =
        .error (.adLdap "Zero or non uniq result")) :=
  ⟨⟨by decide, (unlock_c8 [] _ (by decide)).1⟩,
   ⟨by decide, (unlock_c8 [[("dn", "CN=a")], [("dn", "CN=b")]] _ (by decide)).1⟩⟩

/-- C10: for any method other than "Kerberos" and "NTLM" the
constructor creates no Connection object and fails with AttributeError
at the self.ldap.bind() step, never with the documented
ActiveDirectoryLdapException; the method string is not validated. -/
theorem initView_c10 (server fqdn base username password method : String)
    (bind : ConnKind → Bool) (h1 : method ≠ "Kerberos") (h2 : method ≠ "NTLM") :
    initView server fqdn base username password method bind =
      (none, .error (.attributeError "ldap")) ∧
    (initView server fqdn base username password method bind).2 ≠
      .error (.adLdap "Unable to bind with provided information") := by
  have hc : connFor server fqdn username password method = none := by
    simp [connFor, h1, h2]
  refine ⟨by simp [initView, hc], ?_⟩
  simp [initView, hc]

/-- Witness for C10 at the method string "SIMPLE". -/
theorem initView_c10_witness :
    ("SIMPLE" ≠ "Kerberos" ∧ "SIMPLE" ≠ "NTLM") ∧
    initView "srv" "corp.example.com" "" "user" "pass" "SIMPLE" (fun _ => true) =
      (none, .error (.attributeError "ldap")) :=
  ⟨⟨by decide, by decide⟩,
   (initView_c10 "srv" "corp.example.com" "" "user" "pass" "SIMPLE" (fun _ => true)
     (by decide) (by decide)).1⟩

/-- C9: resolve_sid returns the well-known-SID table value immediately
for a table key, for every directory (so without any directory query);
otherwise, when the directory query for the SID succeeds, it raises
ActiveDirectoryLdapInvalidSID exactly when validation fails or the
query returned zero results, and returns the (possibly multi-element)
result set otherwise. -/
theorem resolve_sid_c9 (directory : String → List GenEvent)
    (validate : String → Bool) (sid : String) :
    (∀ name, WELL_KNOWN_SIDs.lookup sid = some name →
      resolve_sid directory validate sid = .ok (.wellKnown name)) ∧
    (WELL_KNOWN_SIDs.lookup sid = none →
      ∀ results, query directory ("(&(ObjectSid=" ++ sid ++ "))") = .ok results →
        ((validate sid = false ∨ results = []) →
          resolve_sid directory validate sid = .error (.invalidSid ("SID: " ++ sid))) ∧
        (validate sid = true → results ≠ [] →
          resolve_sid directory validate sid = .ok (.records results))) := by
  constructor
  · intro name hname
    simp [resolve_sid, hname]
  · intro hnone results hq
    constructor
    · rintro (hv | hr)
      · simp [resolve_sid, hnone, hv]
      · by_cases hv : validate sid = true
        · simp [resolve_sid, hnone, hv, hq, hr]
        · simp [resolve_sid, hnone, hv]
    · intro hv hr
      simp [resolve_sid, hnone, hv, hq, hr]

/-- Witness for C9: the well-known SID S-1-5-18 resolves to the table
value against a stub directory whose generator raises if it is ever
consulted, and a non-well-known SID with a successful one-record query
returns the record set. -/
theorem resolve_sid_c9_witness :
    resolve_sid (fun _ => [Sum.inr "stub: directory must not be queried"]) (fun _ => false)
      "S-1-5-18" = .ok (.wellKnown "Local System") ∧
    resolve_sid (fun _ => [Sum.inl ⟨some "CN=u,DC=corp", [("objectSid", "S-1-5-21-1-2-3-500")]⟩])
      (fun _ => true) "S-1-5-21-1-2-3-500" =
      .ok (.records [[("objectSid", "S-1-5-21-1-2-3-500"), ("dn", "CN=u,DC=corp")]]) :=
  ⟨(resolve_sid_c9 (fun _ => [Sum.inr "stub: directory must not be queried"]) (fun _ => false)
      "S-1-5-18").1 "Local System" (by decide),
   (((resolve_sid_c9
        (fun _ => [Sum.inl ⟨some "CN=u,DC=corp", [("objectSid", "S-1-5-21-1-2-3-500")]⟩])
        (fun _ => true) "S-1-5-21-1-2-3-500").2 (by decide)
       [[("objectSid", "S-1-5-21-1-2-3-500"), ("dn", "CN=u,DC=corp")]] (by decide)).2
     rfl (by decide))⟩

/-- The record built from a dn-carrying entry holds the envelope dn
under the "dn" key. -/
theorem lookup_dictSet (d : Rec) (k v : String) : (dictSet d k v).lookup k = some v := by
  induction d with
  | nil => simp [dictSet, List.lookup]
  | cons p rest ih =>
    by_cases h : p.1 = k
    · simp [dictSet, h, List.lookup]
    · have hne : (k == p.1) = false := beq_eq_false_iff_ne.mpr fun e => h e.symm
      simp [dictSet, if_neg h, List.lookup, hne, ih]

/-- The query loop over error-free generator events appends exactly the
records of the dn-carrying entries, in arrival order. -/
theorem queryLoop_ok (entries : List SearchEntry) (acc : List Rec) :
    queryLoop (entries.map Sum.inl) acc =
      .ok (acc ++ entries.filterMap fun e => e.dn.map (mkRecord e)) := by
  induction entries generalizing acc with
  | nil => simp [queryLoop]
  | cons e t ih =>
    cases hd : e.dn with
    | none => simp [queryLoop, hd, ih, List.filterMap_cons]
    | some d => simp [queryLoop, hd, ih, List.filterMap_cons]

/-- C6: when the paged search yields a sequence of entries with no
error, query returns exactly the dn-carrying entries in arrival order,
each materialized as its attributes dict with the "dn" key assigned
from the envelope's distinguished name; entries without a dn are
silently skipped. -/
theorem query_c6 (directory : String → List GenEvent) (f : String)
    (entries : List SearchEntry) (hdir : directory f = entries.map Sum.inl) :
    query directory f = .ok (entries.filterMap fun e => e.dn.map (mkRecord e)) ∧
    ∀ r ∈ entries.filterMap fun e => e.dn.map (mkRecord e),
      ∃ e ∈ entries, ∃ d, e.dn = some d ∧ r = mkRecord e d ∧ r.lookup "dn" = some d := by
  constructor
  · rw [query, hdir, queryLoop_ok]
    simp
  · intro r hr
    rw [List.mem_filterMap] at hr
    obtain ⟨e, he, hmap⟩ := hr
    rw [Option.map_eq_some'] at hmap
    obtain ⟨d, hd, hrec⟩ := hmap
    exact ⟨e, he, d, hd, hrec.symm, hrec ▸ lookup_dictSet e.attributes "dn" d⟩

/-- Witness for C6: two hits (one with a pre-existing "dn" attribute
that is overwritten) and one dn-less search reference. -/
theorem query_c6_witness :
    query (fun _ =>
        [Sum.inl ⟨some "CN=a,DC=corp", [("cn", "a")]⟩,
         Sum.inl ⟨none, [("ref", "ldap://other")]⟩,
         Sum.inl ⟨some "CN=b,DC=corp", [("dn", "stale"), ("cn", "b")]⟩])
      "(objectClass=*)" =
      .ok [[("cn", "a"), ("dn", "CN=a,DC=corp")],
           [("dn", "CN=b,DC=corp"), ("cn", "b")]] := by
  have h := (query_c6 (fun _ =>
        [Sum.inl ⟨some "CN=a,DC=corp", [("cn", "a")]⟩,
         Sum.inl ⟨none, [("ref", "ldap://other")]⟩,
         Sum.inl ⟨some "CN=b,DC=corp", [("dn", "stale"), ("cn", "b")]⟩])
      "(objectClass=*)"
      [⟨some "CN=a,DC=corp", [("cn", "a")]⟩,
       ⟨none, [("ref", "ldap://other")]⟩,
       ⟨some "CN=b,DC=corp", [("dn", "stale"), ("cn", "b")]⟩] rfl).1
  exact h.trans (by decide)

/-- An LDAPOperationResult raised mid-generation aborts the loop
whatever was already accumulated. -/
theorem queryLoop_err (pre : List SearchEntry) (msg : String) (rest : List GenEvent)
    (acc : List Rec) :
    queryLoop (pre.map Sum.inl ++ Sum.inr msg :: rest) acc = .error (.adLdap msg) := by
  induction pre generalizing acc with
  | nil => simp [queryLoop]
  | cons e t ih =>
    cases hd : e.dn with
    | none => simp [queryLoop, hd, ih]
    | some d => simp [queryLoop, hd, ih]

/-- C7: when the paged search raises an LDAP-level operation error
after any prefix of entries, the whole query fails with
ActiveDirectoryLdapException and no partial result is returned — the
records gathered from the prefix are discarded. -/
theorem query_c7 (directory : String → List GenEvent) (f : String)
    (pre : List SearchEntry) (msg : String) (rest : List GenEvent)
    (hdir : directory f = pre.map Sum.inl ++ Sum.inr msg :: rest) :
    query directory f = .error (.adLdap msg) ∧
    ∀ rs, query directory f ≠ .ok rs := by
  have h : query directory f = .error (.adLdap msg) := by
    rw [query, hdir, queryLoop_err]
  exact ⟨h, fun rs hrs => by rw [h] at hrs; exact Except.noConfusion hrs⟩

/-- Witness for C7: one successful entry followed by an operation
error; the entry's record is discarded. -/
theorem query_c7_witness :
    query (fun _ =>
        [Sum.inl ⟨some "CN=a,DC=corp", [("cn", "a")]⟩,
         Sum.inr "LDAPOperationResult: sizeLimitExceeded"])
      "(objectClass=*)" =
      .error (.adLdap "LDAPOperationResult: sizeLimitExceeded") :=
  (query_c7 (fun _ =>
        [Sum.inl ⟨some "CN=a,DC=corp", [("cn", "a")]⟩,
         Sum.inr "LDAPOperationResult: sizeLimitExceeded"])
      "(objectClass=*)" [⟨some "CN=a,DC=corp", [("cn", "a")]⟩]
      "LDAPOperationResult: sizeLimitExceeded" [] rfl).1

/-- A datatype matching no entry of the record-type table makes the
lookup loop fall through and produce no value. -/
theorem dnsLoop_no_match (dt : Nat) (data : List Nat) (table : List (String × Nat))
    (h : ∀ p ∈ table, p.2 ≠ dt) : dnsLoop dt data table = .ok none := by
  induction table with
  | nil => rfl
  | cons p t ih =>
    have hp : p.2 ≠ dt := h p (List.mem_cons_self p t)
    cases p with
    | mk n c =>
      simp only [dnsLoop, if_neg (by simpa using hp)]
      exact ih fun q hq => h q (List.mem_cons_of_mem _ hq)

/-- C5: for every blob of at least the four header bytes whose decoded
16-bit datatype matches no entry of the DNS record-type table,
format_dnsrecord produces no value and raises nothing. -/
theorem format_dnsrecord_c5 (raw : List Nat) (h4 : 4 ≤ raw.length)
    (h : ∀ p ∈ DNS_TYPES, p.2 ≠ le16 (raw.getD 2 0) (raw.getD 3 0)) :
    format_dnsrecord raw = .ok none := by
  rw [format_dnsrecord, if_neg (by omega)]
  exact dnsLoop_no_match _ _ _ h

/-- Witness for C5: datatype 99 is no DNS record-type code. -/
theorem format_dnsrecord_c5_witness :
    4 ≤ ([4, 0, 99, 0] : List Nat).length ∧
    (∀ p ∈ DNS_TYPES, p.2 ≠ le16 (([4, 0, 99, 0] : List Nat).getD 2 0)
      (([4, 0, 99, 0] : List Nat).getD 3 0)) ∧
    format_dnsrecord [4, 0, 99, 0] = .ok none :=
  ⟨by decide, by decide, format_dnsrecord_c5 [4, 0, 99, 0] (by decide) (by decide)⟩

/-- C3: a blob with little-endian datalen 4 at bytes [0:2], the code of
record type "A" (1) little-endian at bytes [2:4], any 20 filler bytes,
and data bytes a b c d at offset 24 (followed by anything) decodes to
the type name and the dotted quad of the four data bytes. -/
theorem format_dnsrecord_c3 (mid : List Nat) (a b c d : Nat) (tail : List Nat)
    (hmid : mid.length = 20) :
    format_dnsrecord (4 :: 0 :: 1 :: 0 :: (mid ++ [a, b, c, d] ++ tail)) =
      .ok (some ("A" ++ " " ++
        (toString a ++ "." ++ toString b ++ "." ++ toString c ++ "." ++ toString d))) := by
  have hlen : ¬ (4 :: 0 :: 1 :: 0 :: (mid ++ [a, b, c, d] ++ tail)).length < 4 := by
    simp
  rw [format_dnsrecord, if_neg hlen]
  show dnsLoop 1 (((4 :: 0 :: 1 :: 0 :: (mid ++ [a, b, c, d] ++ tail)).drop 24).take 4)
      DNS_TYPES = _
  have hdrop : (4 :: 0 :: 1 :: 0 :: (mid ++ [a, b, c, d] ++ tail)).drop 24 =
      [a, b, c, d] ++ tail := by
    simp only [List.drop_succ_cons]
    rw [List.append_assoc, ← hmid]
    exact List.drop_left mid ([a, b, c, d] ++ tail)
  rw [hdrop]
  show dnsLoop 1 [a, b, c, d] DNS_TYPES = _
  have hskip : ∀ (nm : String) (cv : Nat) (rest : List (String × Nat)), cv ≠ 1 →
      dnsLoop 1 [a, b, c, d] ((nm, cv) :: rest) = dnsLoop 1 [a, b, c, d] rest :=
    fun nm cv rest h => by rw [dnsLoop, if_neg h]
  rw [show DNS_TYPES = ("ZERO", 0) :: ("A", 1) :: DNS_TYPES.drop 2 from rfl,
    hskip "ZERO" 0 _ (by decide), dnsLoop, if_pos rfl, if_pos rfl]
  rfl

/-- Witness for C3 at the spec's example: datalen 4, datatype 1 and data
bytes 192 168 1 1 give "A 192.168.1.1". -/
theorem format_dnsrecord_c3_witness :
    (List.replicate 20 0).length = 20 ∧
    format_dnsrecord (4 :: 0 :: 1 :: 0 :: (List.replicate 20 0 ++ [192, 168, 1, 1] ++ [])) =
      .ok (some "A 192.168.1.1") :=
  ⟨by decide,
   (format_dnsrecord_c3 (List.replicate 20 0) 192 168 1 1 [] (by decide)).trans (by decide)⟩

/-- The unicode-escape traversal on byte strings without a backslash is
the identity on code points, for any sufficient fuel. -/
theorem ueAux_no_backslash (l : List Nat) (fuel : Nat) (h : 92 ∉ l)
    (hf : l.length ≤ fuel) : ueAux fuel l = .ok l := by
  induction l generalizing fuel with
  | nil => cases fuel <;> rfl
  | cons b t ih =>
    cases fuel with
    | zero => simp at hf
    | succ fuel =>
      have hb : ¬ b = 92 := fun e => h (by simp [e])
      have ht : 92 ∉ t := fun m => h (List.mem_cons_of_mem _ m)
      rw [ueAux.eq_def]
      simp only [if_neg hb]
      rw [ih fuel ht (by simp only [List.length_cons] at hf; omega)]
      rfl

/-- On byte strings without a backslash the unicode-escape codec is the
identity on code points: each byte maps to the code point of the same
value (latin-1) and nothing fails. -/
theorem unicodeEscape_no_backslash (l : List Nat) (h : 92 ∉ l) : unicodeEscape l = .ok l :=
  ueAux_no_backslash l l.length h le_rfl

/-- The DNS_TYPES loop on a datatype whose first table match is a
non-"A" entry renders through the unicode-escape decode and the
printable-or-tab filter. -/
theorem dnsLoop_found_notA (dt : Nat) (data : List Nat) (table : List (String × Nat))
    (n : String) (cc : Nat)
    (hfind : table.find? (fun p => p.2 == dt) = some (n, cc)) (hn : n ≠ "A") :
    dnsLoop dt data table =
      (fun ds => some (n ++ " " ++ strOfCodes (printableFilter ds))) <$> unicodeEscape data := by
  induction table with
  | nil => simp [List.find?] at hfind
  | cons p t ih =>
    obtain ⟨pn, pc⟩ := p
    by_cases h : pc = dt
    · rw [List.find?_cons_of_pos _ (by simpa using h)] at hfind
      injection hfind with hh
      injection hh with h1 h2
      subst h1
      rw [dnsLoop, if_pos h, if_neg (by simpa using hn)]
    · rw [List.find?_cons_of_neg _ (by simpa using h)] at hfind
      rw [dnsLoop, if_neg h]
      exact ih hfind

/-- C4 counterexample: for the NS-typed blob whose two data bytes are a
backslash (0x5C) followed by the letter n (0x6E) — both printable —
the decode is "NS " (the codec collapses the pair to one newline code
point, which the filter then strips), not the "NS \x5cn" a lossless
one-byte-one-code-point codec would give: the claimed codec shape is
false. -/
theorem format_dnsrecord_c4_counterexample :
    format_dnsrecord ([2, 0, 2, 0] ++ List.replicate 20 0 ++ [92, 110]) = .ok (some "NS ") ∧
    format_dnsrecord ([2, 0, 2, 0] ++ List.replicate 20 0 ++ [92, 110]) ≠
      .ok (some ("NS " ++ strOfCodes (printableFilter
        (pySlice ([2, 0, 2, 0] ++ List.replicate 20 0 ++ [92, 110]) 24 26)))) := by
  constructor
  · decide
  · decide

/-- C4 amended: for a blob whose datatype first matches a non-"A" table
entry, the data segment is decoded with the unicode-escape codec; when
the data segment contains no backslash byte that codec maps each byte to
one code point, and the result keeps exactly the characters with code
point above 31 or equal to 9, rendered as the type name, a space and the
value. -/
theorem format_dnsrecord_c4_amended (raw : List Nat) (h4 : 4 ≤ raw.length)
    (n : String) (cc : Nat)
    (hfind : DNS_TYPES.find? (fun p => p.2 == le16 (raw.getD 2 0) (raw.getD 3 0)) =
      some (n, cc))
    (hn : n ≠ "A")
    (hnb : 92 ∉ pySlice raw 24 (24 + le16 (raw.getD 0 0) (raw.getD 1 0))) :
    format_dnsrecord raw =
      .ok (some (n ++ " " ++ strOfCodes (printableFilter
        (pySlice raw 24 (24 + le16 (raw.getD 0 0) (raw.getD 1 0)))))) := by
  rw [format_dnsrecord, if_neg (by omega)]
  show dnsLoop (le16 (raw.getD 2 0) (raw.getD 3 0))
      (pySlice raw 24 (24 + le16 (raw.getD 0 0) (raw.getD 1 0))) DNS_TYPES = _
  rw [dnsLoop_found_notA _ _ _ n cc hfind hn, unicodeEscape_no_backslash _ hnb]
  rfl

/-- Witness for C4 amended, also the spec's test 4: an NS record whose
data bytes are printable A (0x41), the control byte 0x00 and tab
(0x09) decodes to "NS A\t" — the NUL is stripped, the tab retained. -/
theorem format_dnsrecord_c4_amended_witness :
    4 ≤ ([3, 0, 2, 0] ++ List.replicate 20 0 ++ [65, 0, 9] : List Nat).length ∧
    format_dnsrecord ([3, 0, 2, 0] ++ List.replicate 20 0 ++ [65, 0, 9]) =
      .ok (some "NS A\t") :=
  ⟨by decide,
   (format_dnsrecord_c4_amended ([3, 0, 2, 0] ++ List.replicate 20 0 ++ [65, 0, 9])
     (by decide) "NS" 2 (by decide) (by decide) (by decide)).trans (by decide)⟩

end Ldeep
